import Mathlib

/-! Shallow embedding of the PMS (performance-management system) backend in
src/main.py and src/schemas.py.  Python floats are modelled as rationals
(ℚ); the MongoDB collections kpi and kpi_data are modelled as lists; HTTP
errors are modelled by an explicit error type. -/

/-- Model of ObjectId string parsing from the bson library (used by `oid`
in src/main.py, lines 22-26): the constructor accepts exactly 24-character
hexadecimal strings; anything else raises, which `oid` converts to an HTTP
400 error with detail "Invalid id format". -/
def validObjectId (s : String) : Bool :=
  s.length == 24 &&
    s.data.all (fun c =>
      c.isDigit || decide ('a' ≤ c ∧ c ≤ 'f') || decide ('A' ≤ c ∧ c ≤ 'F'))

/-- Embedding of `compute_actual` from src/main.py (lines 29-35): an empty
list gives 0.0, aggregation "Sum" gives the sum, anything else falls
through to the average branch. -/
def compute_actual (values : List ℚ) (aggregation : String) : ℚ :=
  if values.isEmpty then 0
  else if aggregation = "Sum" then values.sum
  else values.sum / (values.length : ℚ)

/-- Embedding of `clamp_percentage` from src/main.py (lines 38-39). -/
def clamp_percentage (p : ℚ) : ℚ :=
  max 0 (min 100 p)

/-- The first (immediately overwritten) Control-branch expression in
`compute_percentage`, src/main.py line 51:
(actual >= start and actual <= target) or (target >= start and start <= actual <= target). -/
def controlExprFirst (actual start target : ℚ) : Bool :=
  (decide (actual ≥ start) && decide (actual ≤ target)) ||
    (decide (target ≥ start) && (decide (start ≤ actual) && decide (actual ≤ target)))

/-- The second (effective) Control-branch expression in
`compute_percentage`, src/main.py line 53:
start <= actual <= target or target <= actual <= start. -/
def controlExprSimplified (actual start target : ℚ) : Bool :=
  (decide (start ≤ actual) && decide (actual ≤ target)) ||
    (decide (target ≤ actual) && decide (actual ≤ start))

/-- Embedding of `compute_percentage` from src/main.py (lines 42-54),
including the shadowed first assignment of the Control branch. -/
def compute_percentage (category : String) (actual start target : ℚ) : ℚ :=
  if (category = "Increase" ∨ category = "Decrease") ∧ start = target then 0
  else if category = "Increase" then
    clamp_percentage ((actual - start) / (target - start) * 100)
  else if category = "Decrease" then
    clamp_percentage ((start - actual) / (start - target) * 100)
  else
    let pct : ℚ := if controlExprFirst actual start target then 100 else 0
    let pct : ℚ := if controlExprSimplified actual start target then 100 else 0
    clamp_percentage pct

/-- Variant of `compute_percentage` with the dead first Control assignment
removed (only the expression of line 53), used to state that the dead
assignment has no effect on the result. -/
def compute_percentage_noFirstControlExpr (category : String) (actual start target : ℚ) : ℚ :=
  if (category = "Increase" ∨ category = "Decrease") ∧ start = target then 0
  else if category = "Increase" then
    clamp_percentage ((actual - start) / (target - start) * 100)
  else if category = "Decrease" then
    clamp_percentage ((start - actual) / (start - target) * 100)
  else
    let pct : ℚ := if controlExprSimplified actual start target then 100 else 0
    clamp_percentage pct

/-- A stored KPI document (collection kpi), fields per the Kpi schema in
src/schemas.py plus the stringified object id.  Timestamps are not
modelled. -/
structure Kpi where
  id : String
  name : String
  unit : String
  category : String
  weightage : ℚ
  start_value : ℚ
  target_value : ℚ
  aggregation : String
  frequency : String
deriving DecidableEq

/-- A stored snapshot document (collection kpi_data).  The percentage is
optional because `weighted_score` checks whether it is None.  The
timestamp is not modelled. -/
structure Snapshot where
  kpi_id : String
  values : List ℚ
  actual : ℚ
  percentage : Option ℚ
deriving DecidableEq

/-- The database: the kpi and kpi_data collections. -/
structure DB where
  kpis : List Kpi
  snapshots : List Snapshot
deriving DecidableEq

/-- Lookup of a snapshot by kpi_id (find_one on the kpi_data collection):
first snapshot with the given kpi_id, if any. -/
def findSnapshot (snaps : List Snapshot) (kid : String) : Option Snapshot :=
  snaps.find? (fun s => s.kpi_id == kid)

/-- The HTTP error outcomes raised by the handlers (HTTPException):
status 400 with detail, or status 404 with detail. -/
inductive ApiError where
  | badRequest (msg : String)
  | notFound (msg : String)
deriving DecidableEq

/-- Embedding of `get_kpi` (GET /api/kpis/kpi_id), src/main.py lines
125-135: `oid` raises 400 on a malformed id, then the KPI is looked up
(404 if absent) and returned together with its snapshot (possibly none). -/
def get_kpi (db : DB) (kpi_id : String) : Except ApiError (Kpi × Option Snapshot) :=
  if validObjectId kpi_id then
    match db.kpis.find? (fun k => k.id == kpi_id) with
    | none => .error (.notFound "KPI not found")
    | some k => .ok (k, findSnapshot db.snapshots kpi_id)
  else .error (.badRequest "Invalid id format")

/-- Embedding of the upsert in `save_kpi_data` (update_one with
upsert=True on kpi_data): replace the first snapshot with this kpi_id, or
append a new one if none exists. -/
def upsertSnapshot (snaps : List Snapshot) (kid : String) (r : Snapshot) : List Snapshot :=
  match snaps with
  | [] => [r]
  | s :: rest => if s.kpi_id == kid then r :: rest else s :: upsertSnapshot rest kid r

/-- The record built by `save_kpi_data` (src/main.py lines 152-161). -/
def snapshotRecord (k : Kpi) (kpi_id : String) (values : List ℚ) : Snapshot :=
  { kpi_id := kpi_id
    values := values
    actual := compute_actual values k.aggregation
    percentage := some (compute_percentage k.category
      (compute_actual values k.aggregation) k.start_value k.target_value) }

/-- Embedding of `save_kpi_data` (POST /api/kpis/kpi_id/data), src/main.py
lines 146-164.  Returns the (possibly updated) database together with the
response: the new record on success, an error otherwise; on error the
database is unchanged. -/
def save_kpi_data (db : DB) (kpi_id : String) (values : List ℚ) :
    DB × Except ApiError Snapshot :=
  if validObjectId kpi_id then
    match db.kpis.find? (fun k => k.id == kpi_id) with
    | none => (db, .error (.notFound "KPI not found"))
    | some k =>
      let record := snapshotRecord k kpi_id values
      ({ db with snapshots := upsertSnapshot db.snapshots kpi_id record }, .ok record)
  else (db, .error (.badRequest "Invalid id format"))

/-- One iteration of the loop in `weighted_score` (src/main.py lines
173-182): skip the KPI when it has no snapshot, or the snapshot has no
percentage, or its weightage is ≤ 0; otherwise accumulate
(total_weight + w, weighted_sum + percentage * w). -/
def wsStep (snaps : List Snapshot) (acc : ℚ × ℚ) (k : Kpi) : ℚ × ℚ :=
  match findSnapshot snaps k.id with
  | none => acc
  | some d =>
    match d.percentage with
    | none => acc
    | some p =>
      if k.weightage ≤ 0 then acc
      else (acc.1 + k.weightage, acc.2 + p * k.weightage)

/-- Helper for the two-decimal format: left-pad a two-digit field with 0. -/
def twoDigits (n : Nat) : String :=
  if n < 10 then "0" ++ toString n else toString n

/-- Model of the Python format specifier .2f applied to the score: the
number rounded to two decimal places, printed with exactly two digits
after the point. -/
def formatTwoDec (q : ℚ) : String :=
  let c : Int := round (q * 100)
  if c < 0 then
    "-" ++ toString ((-c).toNat / 100) ++ "." ++ twoDigits ((-c).toNat % 100)
  else
    toString (c.toNat / 100) ++ "." ++ twoDigits (c.toNat % 100)

/-- Embedding of `weighted_score` (GET /api/weighted-score), src/main.py
lines 167-186. -/
def weighted_score (db : DB) : Option ℚ × String :=
  let totals := db.kpis.foldl (wsStep db.snapshots) (0, 0)
  if totals.1 ≤ 0 then (none, "N/A")
  else (some (totals.2 / totals.1), formatTwoDec (totals.2 / totals.1) ++ "%")

/-- A KPI qualifies for the weighted score when it has a snapshot whose
percentage is present and its weightage is strictly positive (the loop in
`weighted_score` skips all others). -/
def qualifies (snaps : List Snapshot) (k : Kpi) : Bool :=
  match findSnapshot snaps k.id with
  | none => false
  | some d =>
    match d.percentage with
    | none => false
    | some _ => decide (0 < k.weightage)

/-- The percentage contributed by a KPI (0 when it does not qualify). -/
def kpiPct (snaps : List Snapshot) (k : Kpi) : ℚ :=
  match findSnapshot snaps k.id with
  | none => 0
  | some d => d.percentage.getD 0

/-- The qualifying KPIs of a database, in stored order. -/
def qualifyingKpis (db : DB) : List Kpi :=
  db.kpis.filter (qualifies db.snapshots)

/-- Sum of the weightages of the qualifying KPIs. -/
def totalWeight (db : DB) : ℚ :=
  ((qualifyingKpis db).map Kpi.weightage).sum

/-- Weighted sum of percentages over the qualifying KPIs. -/
def weightedSum (db : DB) : ℚ :=
  ((qualifyingKpis db).map (fun k => kpiPct db.snapshots k * k.weightage)).sum

/-- A concrete KPI with weightage 20 (for the worked examples). -/
def exampleKpiA : Kpi :=
  { id := "aaaaaaaaaaaaaaaaaaaaaaaa", name := "A", unit := "%", category := "Increase",
    weightage := 20, start_value := 0, target_value := 100,
    aggregation := "Sum", frequency := "Daily" }

/-- A concrete KPI with weightage 30 (for the worked examples). -/
def exampleKpiB : Kpi :=
  { id := "bbbbbbbbbbbbbbbbbbbbbbbb", name := "B", unit := "%", category := "Increase",
    weightage := 30, start_value := 0, target_value := 100,
    aggregation := "Sum", frequency := "Daily" }

/-- A snapshot for `exampleKpiA` with percentage 50. -/
def exampleSnapA : Snapshot :=
  { kpi_id := "aaaaaaaaaaaaaaaaaaaaaaaa", values := [50], actual := 50,
    percentage := some 50 }

/-- A snapshot for `exampleKpiB` with percentage 100. -/
def exampleSnapB : Snapshot :=
  { kpi_id := "bbbbbbbbbbbbbbbbbbbbbbbb", values := [100], actual := 100,
    percentage := some 100 }

/-- A database with the two example KPIs (weights 20 and 30, percentages
50 and 100). -/
def exampleDB : DB :=
  { kpis := [exampleKpiA, exampleKpiB], snapshots := [exampleSnapA, exampleSnapB] }

lemma clamp_percentage_mem (p : ℚ) :
    0 ≤ clamp_percentage p ∧ clamp_percentage p ≤ 100 := by
  unfold clamp_percentage
  exact ⟨le_max_left 0 _, max_le (by norm_num) (min_le_left _ _)⟩

lemma control_eq (a s t : ℚ) :
    compute_percentage "Control" a s t =
      if controlExprSimplified a s t then 100 else 0 := by
  simp [compute_percentage]
  split <;> norm_num [clamp_percentage]

lemma controlExprSimplified_iff (a s t : ℚ) :
    controlExprSimplified a s t = true ↔ (min s t ≤ a ∧ a ≤ max s t) := by
  simp only [controlExprSimplified, Bool.or_eq_true, Bool.and_eq_true, decide_eq_true_eq]
  rcases le_total s t with hst | hts
  · rw [min_eq_left hst, max_eq_right hst]
    constructor
    · rintro (⟨h1, h2⟩ | ⟨h1, h2⟩)
      · exact ⟨h1, h2⟩
      · exact ⟨hst.trans h1, h2.trans hst⟩
    · exact fun hh => Or.inl hh
  · rw [min_eq_right hts, max_eq_left hts]
    constructor
    · rintro (⟨h1, h2⟩ | ⟨h1, h2⟩)
      · exact ⟨hts.trans h1, h2.trans hts⟩
      · exact ⟨h1, h2⟩
    · exact fun hh => Or.inr hh

lemma wsStep_not_qual (snaps : List Snapshot) (acc : ℚ × ℚ) (k : Kpi)
    (h : qualifies snaps k = false) : wsStep snaps acc k = acc := by
  cases hf : findSnapshot snaps k.id with
  | none => simp [wsStep, hf]
  | some d =>
    cases hp : d.percentage with
    | none => simp [wsStep, hf, hp]
    | some p =>
      have hw : k.weightage ≤ 0 := by
        simp [qualifies, hf, hp] at h
        exact h
      simp [wsStep, hf, hp, hw]

lemma wsStep_qual (snaps : List Snapshot) (acc : ℚ × ℚ) (k : Kpi)
    (h : qualifies snaps k = true) :
    wsStep snaps acc k = (acc.1 + k.weightage, acc.2 + kpiPct snaps k * k.weightage) := by
  cases hf : findSnapshot snaps k.id with
  | none => simp [qualifies, hf] at h
  | some d =>
    cases hp : d.percentage with
    | none => simp [qualifies, hf, hp] at h
    | some p =>
      have hw : 0 < k.weightage := by
        simp [qualifies, hf, hp] at h
        exact h
      simp [wsStep, kpiPct, hf, hp, not_le.mpr hw]

lemma qualifies_pos (snaps : List Snapshot) (k : Kpi)
    (h : qualifies snaps k = true) : 0 < k.weightage := by
  cases hf : findSnapshot snaps k.id with
  | none => simp [qualifies, hf] at h
  | some d =>
    cases hp : d.percentage with
    | none => simp [qualifies, hf, hp] at h
    | some p =>
      simp [qualifies, hf, hp] at h
      exact h

lemma foldl_wsStep (snaps : List Snapshot) (ks : List Kpi) (acc : ℚ × ℚ) :
    ks.foldl (wsStep snaps) acc =
      (acc.1 + ((ks.filter (qualifies snaps)).map Kpi.weightage).sum,
       acc.2 + ((ks.filter (qualifies snaps)).map
          (fun k => kpiPct snaps k * k.weightage)).sum) := by
  induction ks generalizing acc with
  | nil => simp
  | cons k rest ih =>
    cases hq : qualifies snaps k with
    | false =>
      rw [List.foldl_cons, wsStep_not_qual snaps acc k hq, ih]
      simp [List.filter_cons, hq]
    | true =>
      rw [List.foldl_cons, wsStep_qual snaps acc k hq, ih]
      simp [List.filter_cons, hq, add_assoc]

lemma fold_totals (db : DB) :
    db.kpis.foldl (wsStep db.snapshots) (0, 0) = (totalWeight db, weightedSum db) := by
  rw [foldl_wsStep]
  simp [totalWeight, weightedSum, qualifyingKpis]

lemma weighted_score_eq (db : DB) (hpos : 0 < totalWeight db) :
    weighted_score db = (some (weightedSum db / totalWeight db),
      formatTwoDec (weightedSum db / totalWeight db) ++ "%") := by
  simp only [weighted_score, fold_totals]
  rw [if_neg (not_le.mpr hpos)]

lemma formatTwoDec_80 : formatTwoDec 80 = "80.00" := by
  have h : round ((80 : ℚ) * 100) = 8000 := by norm_num [round_eq]
  unfold formatTwoDec
  rw [h]
  decide

lemma exampleDB_score : weighted_score exampleDB = (some 80, "80.00%") := by
  have hfold : exampleDB.kpis.foldl (wsStep exampleDB.snapshots) (0, 0) = (50, 4000) := by
    simp [exampleDB, wsStep, findSnapshot, exampleKpiA, exampleKpiB,
      exampleSnapA, exampleSnapB]
    norm_num
  simp only [weighted_score, hfold]
  norm_num [formatTwoDec_80]
  rfl

lemma findSnapshot_upsert (snaps : List Snapshot) (kid : String) (r : Snapshot)
    (hr : r.kpi_id = kid) :
    findSnapshot (upsertSnapshot snaps kid r) kid = some r := by
  induction snaps with
  | nil => simp [upsertSnapshot, findSnapshot, hr]
  | cons s rest ih =>
    by_cases hs : (s.kpi_id == kid) = true
    · simp [upsertSnapshot, hs, findSnapshot, hr]
    · simp only [upsertSnapshot, hs, if_false, Bool.false_eq_true]
      simpa [findSnapshot, List.find?_cons, hs] using ih

lemma countP_upsert (snaps : List Snapshot) (kid : String) (r : Snapshot)
    (hr : r.kpi_id = kid)
    (hle : snaps.countP (fun s => s.kpi_id == kid) ≤ 1) :
    (upsertSnapshot snaps kid r).countP (fun s => s.kpi_id == kid) = 1 := by
  induction snaps with
  | nil => simp [upsertSnapshot, List.countP_cons, hr]
  | cons s rest ih =>
    by_cases hs : (s.kpi_id == kid) = true
    · have h0 : rest.countP (fun s => s.kpi_id == kid) = 0 := by
        have h1 := hle
        simp only [List.countP_cons, hs, if_true] at h1
        omega
      simp only [upsertSnapshot, hs, if_true, List.countP_cons, h0, hr,
        beq_self_eq_true]
    · have hle2 : rest.countP (fun s => s.kpi_id == kid) ≤ 1 := by
        have h1 := hle
        simp only [List.countP_cons, hs, if_false, Bool.false_eq_true] at h1
        omega
      simp only [upsertSnapshot, hs, if_false, Bool.false_eq_true, List.countP_cons,
        ih hle2]

/-- C1: for start ≠ target, `compute_percentage` on category "Increase"
returns the clamped value of (actual - start) / (target - start) * 100,
and on category "Decrease" the clamped value of
(start - actual) / (start - target) * 100; for start = target both
categories return 0 for every actual (division-by-zero guard). -/
theorem C1_increase_decrease_formula (actual start target : ℚ) (h : start ≠ target) :
    compute_percentage "Increase" actual start target
        = clamp_percentage ((actual - start) / (target - start) * 100) ∧
    compute_percentage "Decrease" actual start target
        = clamp_percentage ((start - actual) / (start - target) * 100) ∧
    (∀ a s : ℚ, compute_percentage "Increase" a s s = 0 ∧
      compute_percentage "Decrease" a s s = 0) := by
  refine ⟨?_, ?_, ?_⟩
  · simp [compute_percentage, h]
  · simp [compute_percentage, h]
  · intro a s
    constructor <;> simp [compute_percentage]

/-- Witness for C1 at actual = 50, start = 0, target = 100. -/
theorem C1_witness :
    compute_percentage "Increase" 50 0 100
      = clamp_percentage ((50 - 0) / (100 - 0) * 100) :=
  (C1_increase_decrease_formula 50 0 100 (by norm_num)).1

/-- C2: on category "Control", `compute_percentage` returns 100 exactly
when actual lies in the closed interval between start and target
(whatever their order) and 0 otherwise; in particular (actual, start,
target) = (15, 20, 10) gives 100, and the boundary points actual = start
and actual = target give 100. -/
theorem C2_control_band (actual start target : ℚ) :
    (compute_percentage "Control" actual start target = 100 ↔
      (min start target ≤ actual ∧ actual ≤ max start target)) ∧
    (¬ (min start target ≤ actual ∧ actual ≤ max start target) →
      compute_percentage "Control" actual start target = 0) ∧
    compute_percentage "Control" 15 20 10 = 100 ∧
    compute_percentage "Control" start start target = 100 ∧
    compute_percentage "Control" target start target = 100 := by
  refine ⟨?_, ?_, ?_, ?_, ?_⟩
  · rw [control_eq, ← controlExprSimplified_iff]
    cases h2 : controlExprSimplified actual start target <;> norm_num [h2]
  · intro hout
    rw [control_eq, if_neg]
    exact fun hc => hout ((controlExprSimplified_iff actual start target).mp hc)
  · norm_num [compute_percentage, controlExprSimplified, controlExprFirst, clamp_percentage]
    decide
  · rw [control_eq, if_pos]
    rcases le_total start target with h | h <;> simp [controlExprSimplified, h]
  · rw [control_eq, if_pos]
    rcases le_total start target with h | h <;> simp [controlExprSimplified, h]

/-- Witness for C2 at actual = 25, start = 10, target = 20 (outside the
band, so the percentage is 0). -/
theorem C2_witness : compute_percentage "Control" 25 10 20 = 0 :=
  (C2_control_band 25 10 20).2.1 (by norm_num)

/-- C3: for every category string and all inputs, the result of
`compute_percentage` lies in the closed interval 0 to 100; overshoot from
the Increase formula is clipped, e.g. (150, 0, 100) gives 100 and
(-10, 0, 100) gives 0. -/
theorem C3_clamped_range :
    (∀ (category : String) (actual start target : ℚ),
      0 ≤ compute_percentage category actual start target ∧
        compute_percentage category actual start target ≤ 100) ∧
    compute_percentage "Increase" 150 0 100 = 100 ∧
    compute_percentage "Increase" (-10) 0 100 = 0 := by
  refine ⟨?_, ?_, ?_⟩
  · intro category actual start target
    unfold compute_percentage
    split
    · norm_num
    · split
      · exact clamp_percentage_mem _
      · split
        · exact clamp_percentage_mem _
        · exact clamp_percentage_mem _
  · norm_num [compute_percentage, clamp_percentage]
  · norm_num [compute_percentage, clamp_percentage]

/-- C4: the `weighted_score` loop leaves the accumulator unchanged for
every KPI that has no snapshot, or a snapshot without percentage, or
weightage ≤ 0; and when the accumulated total weight is ≤ 0 — in
particular when no KPI qualifies — the result is (none, "N/A"). -/
theorem C4_skip_and_na :
    (∀ (snaps : List Snapshot) (acc : ℚ × ℚ) (k : Kpi),
      qualifies snaps k = false → wsStep snaps acc k = acc) ∧
    (∀ db : DB, (db.kpis.foldl (wsStep db.snapshots) (0, 0)).1 ≤ 0 →
      weighted_score db = (none, "N/A")) ∧
    (∀ db : DB, (∀ k ∈ db.kpis, qualifies db.snapshots k = false) →
      weighted_score db = (none, "N/A")) := by
  refine ⟨wsStep_not_qual, ?_, ?_⟩
  · intro db h
    simp only [weighted_score]
    rw [if_pos h]
  · intro db h
    have hnil : db.kpis.filter (qualifies db.snapshots) = [] :=
      List.filter_eq_nil_iff.mpr (fun k hk => by simp [h k hk])
    have h0 : (db.kpis.foldl (wsStep db.snapshots) (0, 0)).1 ≤ 0 := by
      rw [foldl_wsStep, hnil]
      simp
    simp only [weighted_score]
    rw [if_pos h0]

/-- Witness for C4: a database with one KPI and no snapshots yields
(none, "N/A"). -/
theorem C4_witness : weighted_score ⟨[exampleKpiA], []⟩ = (none, "N/A") :=
  C4_skip_and_na.2.2 ⟨[exampleKpiA], []⟩ (fun k _ => rfl)

/-- C5: with at least one qualifying KPI, `weighted_score` returns the
weight-normalized score weightedSum / totalWeight over the qualifying
KPIs, displayed to two decimals with a trailing percent sign; if every
contributing percentage is between 0 and 100 the score is too (convex
combination); weights 20 and 30 with percentages 50 and 100 give
(some 80, "80.00%"). -/
theorem C5_weighted_average (db : DB)
    (h : ∃ k ∈ db.kpis, qualifies db.snapshots k = true) :
    weighted_score db = (some (weightedSum db / totalWeight db),
      formatTwoDec (weightedSum db / totalWeight db) ++ "%") ∧
    ((∀ k ∈ qualifyingKpis db,
        0 ≤ kpiPct db.snapshots k ∧ kpiPct db.snapshots k ≤ 100) →
      0 ≤ weightedSum db / totalWeight db ∧ weightedSum db / totalWeight db ≤ 100) ∧
    weighted_score exampleDB = (some 80, "80.00%") := by
  obtain ⟨k0, hk0, hq0⟩ := h
  have hk0f : k0 ∈ qualifyingKpis db := List.mem_filter.mpr ⟨hk0, hq0⟩
  have hpos : 0 < totalWeight db := by
    apply List.sum_pos
    · intro x hx
      obtain ⟨k, hkmem, hkx⟩ := List.mem_map.mp hx
      have hw := qualifies_pos db.snapshots k (List.of_mem_filter hkmem)
      exact hkx ▸ hw
    · exact fun hemp => (List.ne_nil_of_mem hk0f) (List.map_eq_nil_iff.mp hemp)
  refine ⟨weighted_score_eq db hpos, ?_, exampleDB_score⟩
  intro hb
  have hws_nonneg : 0 ≤ weightedSum db := by
    apply List.sum_nonneg
    intro x hx
    obtain ⟨k, hkmem, hkx⟩ := List.mem_map.mp hx
    have hw := qualifies_pos db.snapshots k (List.of_mem_filter hkmem)
    have hp := (hb k hkmem).1
    exact hkx ▸ mul_nonneg hp hw.le
  constructor
  · exact div_nonneg hws_nonneg hpos.le
  · rw [div_le_iff₀ hpos]
    have hle : weightedSum db ≤ ((qualifyingKpis db).map (fun k => 100 * k.weightage)).sum := by
      apply List.sum_le_sum
      intro k hkmem
      have hw := qualifies_pos db.snapshots k (List.of_mem_filter hkmem)
      exact mul_le_mul_of_nonneg_right (hb k hkmem).2 hw.le
    have h100 : ((qualifyingKpis db).map (fun k => 100 * k.weightage)).sum
        = 100 * totalWeight db := List.sum_map_mul_left _ _ _
    exact hle.trans (le_of_eq h100)

/-- Witness for C5: the example database with weights 20 and 30 and
percentages 50 and 100 scores (some 80, "80.00%"). -/
theorem C5_witness : weighted_score exampleDB = (some 80, "80.00%") :=
  (C5_weighted_average exampleDB
    ⟨exampleKpiA, by simp [exampleDB], by rfl⟩).2.2

/-- C6: for a well-formed kpi_id matching no stored KPI, `save_kpi_data`
returns the 404 error and leaves the database unchanged; for a matching
KPI it upserts the snapshot record computed from the submitted values
(actual via `compute_actual`, percentage via `compute_percentage`),
replacing the prior snapshot so that exactly one snapshot is keyed by
kpi_id, and returns that record. -/
theorem C6_save_snapshot (db : DB) (kpi_id : String) (values : List ℚ)
    (hvalid : validObjectId kpi_id = true) :
    (db.kpis.find? (fun k => k.id == kpi_id) = none →
      save_kpi_data db kpi_id values = (db, .error (.notFound "KPI not found"))) ∧
    (∀ k, db.kpis.find? (fun k => k.id == kpi_id) = some k →
      save_kpi_data db kpi_id values =
        ({ db with snapshots :=
            upsertSnapshot db.snapshots kpi_id (snapshotRecord k kpi_id values) },
         .ok (snapshotRecord k kpi_id values)) ∧
      findSnapshot (upsertSnapshot db.snapshots kpi_id (snapshotRecord k kpi_id values))
          kpi_id = some (snapshotRecord k kpi_id values) ∧
      (db.snapshots.countP (fun s => s.kpi_id == kpi_id) ≤ 1 →
        (upsertSnapshot db.snapshots kpi_id
            (snapshotRecord k kpi_id values)).countP (fun s => s.kpi_id == kpi_id) = 1)) := by
  constructor
  · intro hnone
    simp [save_kpi_data, hvalid, hnone]
  · intro k hk
    refine ⟨?_, findSnapshot_upsert db.snapshots kpi_id _ rfl,
      countP_upsert db.snapshots kpi_id _ rfl⟩
    simp [save_kpi_data, hvalid, hk]

/-- Witness for C6: saving values [50] for the example KPI stores exactly
its computed snapshot record and returns it. -/
theorem C6_witness :
    save_kpi_data ⟨[exampleKpiA], []⟩ "aaaaaaaaaaaaaaaaaaaaaaaa" [50] =
      (⟨[exampleKpiA], [snapshotRecord exampleKpiA "aaaaaaaaaaaaaaaaaaaaaaaa" [50]]⟩,
        .ok (snapshotRecord exampleKpiA "aaaaaaaaaaaaaaaaaaaaaaaa" [50])) :=
  ((C6_save_snapshot ⟨[exampleKpiA], []⟩ "aaaaaaaaaaaaaaaaaaaaaaaa" [50] (by decide)).2
    exampleKpiA rfl).1

/-- C7: `compute_actual` returns 0 on the empty list for every
aggregation; on a non-empty list "Sum" gives the sum and "Average" the
mean; singleton lists give the value itself, and [2, 4, 6] gives 12
under "Sum" and 4 under "Average". -/
theorem C7_compute_actual (vs : List ℚ) (h : vs ≠ []) :
    (∀ aggregation : String, compute_actual [] aggregation = 0) ∧
    compute_actual vs "Sum" = vs.sum ∧
    compute_actual vs "Average" = vs.sum / (vs.length : ℚ) ∧
    (∀ v : ℚ, compute_actual [v] "Sum" = v ∧ compute_actual [v] "Average" = v) ∧
    compute_actual [2, 4, 6] "Sum" = 12 ∧
    compute_actual [2, 4, 6] "Average" = 4 := by
  have hne : vs.isEmpty = false := by simpa [List.isEmpty_iff] using h
  refine ⟨?_, ?_, ?_, ?_, ?_, ?_⟩
  · intro agg
    simp [compute_actual]
  · simp [compute_actual, hne]
  · simp [compute_actual, hne]
  · intro v
    constructor <;> simp [compute_actual]
  · norm_num [compute_actual]
  · norm_num [compute_actual]
    decide

/-- Witness for C7 at the singleton list [1]. -/
theorem C7_witness : compute_actual [2, 4, 6] "Sum" = 12 :=
  (C7_compute_actual [1] (List.cons_ne_nil 1 [])).2.2.2.2.1

/-- C8 counterexample: on the malformed id "xyz" (not a 24-character hex
string), `get_kpi` fails with the 400 bad-request error "Invalid id
format", not with the 404 not-found error the claim asserts. -/
theorem C8_counterexample :
    get_kpi ⟨[], []⟩ "xyz" = .error (.badRequest "Invalid id format") ∧
    get_kpi ⟨[], []⟩ "xyz" ≠ .error (.notFound "KPI not found") := by
  constructor
  · rfl
  · intro h
    exact ApiError.noConfusion (Except.error.inj h)

/-- C8 (amended): `get_kpi` fails with 400 "Invalid id format" when the
id is malformed, fails with 404 "KPI not found" when the id is
well-formed but matches no stored KPI, and returns the stored KPI
together with its snapshot when the lookup succeeds. -/
theorem C8_get_by_id (db : DB) (kpi_id : String) :
    (validObjectId kpi_id = false →
      get_kpi db kpi_id = .error (.badRequest "Invalid id format")) ∧
    (validObjectId kpi_id = true → db.kpis.find? (fun k => k.id == kpi_id) = none →
      get_kpi db kpi_id = .error (.notFound "KPI not found")) ∧
    (∀ k, validObjectId kpi_id = true →
      db.kpis.find? (fun k => k.id == kpi_id) = some k →
      get_kpi db kpi_id = .ok (k, findSnapshot db.snapshots kpi_id)) := by
  refine ⟨?_, ?_, ?_⟩
  · intro h
    simp [get_kpi, h]
  · intro hv hnone
    simp [get_kpi, hv, hnone]
  · intro k hv hk
    simp [get_kpi, hv, hk]

/-- Witness for the amended C8: fetching the example KPI by its id
returns it together with its snapshot. -/
theorem C8_witness :
    get_kpi ⟨[exampleKpiA], [exampleSnapA]⟩ "aaaaaaaaaaaaaaaaaaaaaaaa" =
      .ok (exampleKpiA, some exampleSnapA) := by
  have h := (C8_get_by_id ⟨[exampleKpiA], [exampleSnapA]⟩
      "aaaaaaaaaaaaaaaaaaaaaaaa").2.2 exampleKpiA (by decide) rfl
  rw [h]
  rfl

/-- C9 counterexample: at (actual, start, target) = (15, 20, 10) the
first Control-branch expression evaluates to false while the simplified
one evaluates to true, so the two expressions are not logically
equivalent. -/
theorem C9_counterexample :
    controlExprFirst 15 20 10 = false ∧ controlExprSimplified 15 20 10 = true ∧
    controlExprFirst 15 20 10 ≠ controlExprSimplified 15 20 10 := by
  refine ⟨?_, ?_, ?_⟩ <;> norm_num [controlExprFirst, controlExprSimplified]

/-- C9 (amended): the first Control-branch expression is equivalent to
the ordered membership start ≤ actual ≤ target only (it does not handle
target < start), hence not equivalent to the order-independent simplified
expression; nevertheless, being immediately overwritten, it has no effect:
`compute_percentage` equals the variant without the first assignment. -/
theorem C9_dead_first_assignment :
    (∀ a s t : ℚ, (controlExprFirst a s t = true ↔ (s ≤ a ∧ a ≤ t))) ∧
    (∀ (category : String) (a s t : ℚ),
      compute_percentage category a s t
        = compute_percentage_noFirstControlExpr category a s t) := by
  constructor
  · intro a s t
    simp only [controlExprFirst, Bool.or_eq_true, Bool.and_eq_true, decide_eq_true_eq,
      ge_iff_le]
    constructor
    · rintro (⟨h1, h2⟩ | ⟨h1, h2, h3⟩)
      · exact ⟨h1, h2⟩
      · exact ⟨h2, h3⟩
    · exact fun hh => Or.inl hh
  · intro category a s t
    rfl

/-- C10: for every non-empty value list and every aggregation string
other than "Sum" — misspellings included — `compute_actual` falls through
to the Average branch and returns the arithmetic mean. -/
theorem C10_default_average (vs : List ℚ) (aggregation : String) (h : vs ≠ [])
    (hagg : aggregation ≠ "Sum") :
    compute_actual vs aggregation = vs.sum / (vs.length : ℚ) := by
  have hne : vs.isEmpty = false := by simpa [List.isEmpty_iff] using h
  simp [compute_actual, hne, hagg]

/-- Witness for C10: the misspelled aggregation "Averge" on [2, 4, 6]
yields the mean 4. -/
theorem C10_witness : compute_actual [2, 4, 6] "Averge" = 4 := by
  rw [C10_default_average [2, 4, 6] "Averge" (by simp) (by decide)]
  norm_num
